import Mathlib

/-!
# Verification of the Phaser Text / Events fragment

Shallow embedding of `src/gameobjects/Text.js` and `src/gameobjects/Events.js`
(Phaser, 2013 snapshot).  JavaScript numbers are modelled as rationals: the
code under study only assigns and compares coordinates, it never performs
float arithmetic on them, so any type with decidable equality represents the
behaviour faithfully.  The `rotation` scalar, consumed by the degree/radian
conversions, is modelled as a real number.

External collaborators (the PIXI rendering base class, the DOM canvas, the
signal primitive, `Phaser.Math`, the owning group) are not part of the two
source files; the fields and operations of theirs that the code touches are
modelled explicitly, and calls out to them are recorded as effect data so
that theorems can speak about which collaborator calls happened.
-/

namespace Phaser

/-- A 2-d point, as used for `position`, `anchor` and `scale`. -/
structure Point where
  x : ℚ := 0
  y : ℚ := 0
deriving DecidableEq, Repr

/-- The private `_cache` object literal of `Phaser.Text` (Text.js lines
97-118): dirty flag, transform cache `a00..a12, id`, the previously
calculated position `x/y`, and the world-transform scale values. -/
structure TextCache where
  dirty : Bool
  a00 : ℚ
  a01 : ℚ
  a02 : ℚ
  a10 : ℚ
  a11 : ℚ
  a12 : ℚ
  id : ℚ
  x : ℚ
  y : ℚ
  scaleX : ℚ
  scaleY : ℚ
deriving DecidableEq, Repr

/-- Modelled from the spec: the DOM canvas element the PIXI.Text base class
creates (the rendering surface).  The code only reads `parentNode` and asks
the parent to `removeChild`; a parent is represented by an identifier. -/
structure Canvas where
  parentNode : Option ℕ
deriving DecidableEq, Repr

/-- The state of a `Phaser.Text` node: the fields assigned by the
constructor (Text.js lines 17-128) together with the inherited PIXI fields
the two methods and three accessors touch (`position`, `rotation`,
`canvas`, `context`).  `canvas` and `context` are `Option` because
`destroy()` nulls them. -/
structure Text where
  «exists» : Bool
  alive : Bool
  group : Option ℕ
  name : String
  _text : String
  _style : String
  x : ℚ
  y : ℚ
  position : Point
  anchor : Point
  scale : Point
  _cache : TextCache
  renderable : Bool
  rotation : ℝ
  canvas : Option Canvas
  context : Option ℕ

/-- `Phaser.Text.prototype.update` (Text.js lines 137-156): return at once
when `exists` is false; otherwise clear `dirty`, copy `this.x / this.y`
into `_cache.x / _cache.y`, and if `position` differs from the fresh cache
snapshot overwrite `position` from the cache and set `dirty`. -/
def Text.update (s : Text) : Text :=
  if !s.«exists» then s
  else
    let c : TextCache := { s._cache with dirty := false, x := s.x, y := s.y }
    if s.position.x ≠ c.x ∨ s.position.y ≠ c.y then
      { s with _cache := { c with dirty := true },
               position := { x := c.x, y := c.y } }
    else
      { s with _cache := c }

end Phaser

/-- A concrete live node used in several witnesses: the state a node reaches
after construction at (10, 20) with text "hi", once gameplay code has moved
`position` to (50, 20) while `x`, `y` and the cache still hold (10, 20). -/
def sampleMoved : Phaser.Text :=
  { «exists» := true, alive := true, group := some 0, name := ""
    _text := "hi", _style := "", x := 10, y := 20
    position := { x := 50, y := 20 }, anchor := {}, scale := { x := 1, y := 1 }
    _cache := { dirty := false, a00 := 1, a01 := 0, a02 := 10, a10 := 0,
                a11 := 1, a12 := 20, id := 1, x := 10, y := 20,
                scaleX := 1, scaleY := 1 }
    renderable := true, rotation := 0
    canvas := some { parentNode := none }, context := some 0 }

/-- A state refuting C1 as stated: `x`, `y` and `position` were all moved to
(5, 0) externally since the last tick, while the cache still stores the old
(0, 0).  `position` differs from the previously stored cache values, yet
`update()` compares against the fresh snapshot of `x/y` and reports clean. -/
def staleCacheNode : Phaser.Text :=
  { «exists» := true, alive := true, group := none, name := ""
    _text := "", _style := "", x := 5, y := 0
    position := { x := 5, y := 0 }, anchor := {}, scale := { x := 1, y := 1 }
    _cache := { dirty := false, a00 := 1, a01 := 0, a02 := 0, a10 := 0,
                a11 := 1, a12 := 0, id := 1, x := 0, y := 0,
                scaleX := 1, scaleY := 1 }
    renderable := true, rotation := 0
    canvas := some { parentNode := none }, context := some 0 }

/-- A concrete destroyed-looking node with `exists = false`. -/
def deadNode : Phaser.Text :=
  { «exists» := false, alive := true, group := none, name := ""
    _text := "hi", _style := "", x := 10, y := 20
    position := { x := 50, y := 20 }, anchor := {}, scale := { x := 1, y := 1 }
    _cache := { dirty := true, a00 := 1, a01 := 0, a02 := 10, a10 := 0,
                a11 := 1, a12 := 20, id := 1, x := 10, y := 20,
                scaleX := 1, scaleY := 1 }
    renderable := true, rotation := 0
    canvas := none, context := none }

namespace Phaser

/-- The collaborator calls `Phaser.Text.prototype.destroy` makes: whether
`group.remove(this)` was invoked, and whether `canvas.parentNode.removeChild`
(detachment from the display tree) was requested. -/
structure DestroyFx where
  removedFromGroup : Bool
  removeChildRequested : Bool
deriving DecidableEq, Repr

/-- `Phaser.Text.prototype.destroy` (Text.js lines 161-182): ask the group
to remove this node when `group` is truthy; then read `canvas.parentNode`
(a fault, modelled as `none`, when `canvas` is null); when a parent exists,
request `removeChild` (the DOM detaches the canvas, so its `parentNode`
becomes null) and keep the handles, otherwise null out `canvas` and
`context`; finally clear `exists` and `group`. -/
def Text.destroy (s : Text) : Option (Text × DestroyFx) :=
  let removed := s.group.isSome
  match s.canvas with
  | none => none
  | some c =>
    match c.parentNode with
    | some _ =>
        some ({ s with canvas := some { parentNode := none },
                       «exists» := false, group := none },
              { removedFromGroup := removed, removeChildRequested := true })
    | none =>
        some ({ s with canvas := none, context := none,
                       «exists» := false, group := none },
              { removedFromGroup := removed, removeChildRequested := false })

end Phaser

namespace Phaser

/-- Modelled from the spec: the SignalChannel collaborator
(`Phaser.Signal`, not part of this fragment).  Only the state the claims
need is kept: whether the channel has been disposed. -/
structure Signal where
  disposed : Bool
deriving DecidableEq, Repr

/-- Modelled from the spec: `dispose()` makes the channel permanently
inert. -/
def Signal.dispose (s : Signal) : Signal := { s with disposed := true }

/-- The state of a `Phaser.Events` hub (Events.js lines 15-35): the parent
back-reference, the five fixed signals, the optional input group of six,
and the optional animation group of three.  Every signal slot is `Option`
because the code null-checks the optional groups and JavaScript would
fault on disposing a null slot. -/
structure Events where
  parent : Option ℕ
  onAddedToGroup : Option Signal
  onRemovedFromGroup : Option Signal
  onKilled : Option Signal
  onRevived : Option Signal
  onOutOfBounds : Option Signal
  onInputOver : Option Signal
  onInputOut : Option Signal
  onInputDown : Option Signal
  onInputUp : Option Signal
  onDragStart : Option Signal
  onDragStop : Option Signal
  onAnimationStart : Option Signal
  onAnimationComplete : Option Signal
  onAnimationLoop : Option Signal
deriving DecidableEq, Repr

/-- The `Phaser.Events` constructor (Events.js lines 15-35): stores the
parent, eagerly creates the five fixed signals, leaves both optional
groups null. -/
def Events.create (sprite : ℕ) : Events :=
  { parent := some sprite
    onAddedToGroup := some { disposed := false }
    onRemovedFromGroup := some { disposed := false }
    onKilled := some { disposed := false }
    onRevived := some { disposed := false }
    onOutOfBounds := some { disposed := false }
    onInputOver := none, onInputOut := none, onInputDown := none
    onInputUp := none, onDragStart := none, onDragStop := none
    onAnimationStart := none, onAnimationComplete := none
    onAnimationLoop := none }

/-- Modelled from the spec: the external input-enabling collaborator
creates all six input signals together. -/
def Events.enableInputSignals (h : Events) : Events :=
  { h with onInputOver := some { disposed := false }
           onInputOut := some { disposed := false }
           onInputDown := some { disposed := false }
           onInputUp := some { disposed := false }
           onDragStart := some { disposed := false }
           onDragStop := some { disposed := false } }

/-- Modelled from the spec: the external animation collaborator creates
all three animation signals together. -/
def Events.enableAnimationSignals (h : Events) : Events :=
  { h with onAnimationStart := some { disposed := false }
           onAnimationComplete := some { disposed := false }
           onAnimationLoop := some { disposed := false } }

/-- Calling `.dispose()` on a signal slot: a JavaScript fault (modelled as
`none`) when the slot is null, otherwise the disposed signal. -/
def disposeSlot : Option Signal → Option Signal
  | none => none
  | some s => some s.dispose

/-- `Phaser.Events.prototype.destroy` (Events.js lines 39-65): clear
`parent`; dispose the five fixed signals unconditionally; when
`onInputOver` is truthy dispose all six input-group members; when
`onAnimationStart` is truthy dispose all three animation-group members.
The result carries the number of `dispose()` calls made; `none` models a
thrown null-dereference. -/
def Events.destroy (h : Events) : Option (Events × ℕ) := do
  let a ← disposeSlot h.onAddedToGroup
  let b ← disposeSlot h.onRemovedFromGroup
  let c ← disposeSlot h.onKilled
  let d ← disposeSlot h.onRevived
  let e ← disposeSlot h.onOutOfBounds
  let h1 : Events := { h with
    parent := none,
    onAddedToGroup := some a, onRemovedFromGroup := some b,
    onKilled := some c, onRevived := some d, onOutOfBounds := some e }
  let (h2, n2) ←
    if h1.onInputOver.isSome then do
      let i1 ← disposeSlot h1.onInputOver
      let i2 ← disposeSlot h1.onInputOut
      let i3 ← disposeSlot h1.onInputDown
      let i4 ← disposeSlot h1.onInputUp
      let i5 ← disposeSlot h1.onDragStart
      let i6 ← disposeSlot h1.onDragStop
      pure (({ h1 with
               onInputOver := some i1, onInputOut := some i2,
               onInputDown := some i3, onInputUp := some i4,
               onDragStart := some i5, onDragStop := some i6 }, 6) :
              Events × ℕ)
    else pure ((h1, 0) : Events × ℕ)
  let (h3, n3) ←
    if h2.onAnimationStart.isSome then do
      let a1 ← disposeSlot h2.onAnimationStart
      let a2 ← disposeSlot h2.onAnimationComplete
      let a3 ← disposeSlot h2.onAnimationLoop
      pure (({ h2 with
               onAnimationStart := some a1,
               onAnimationComplete := some a2,
               onAnimationLoop := some a3 }, 3) : Events × ℕ)
    else pure ((h2, 0) : Events × ℕ)
  pure (h3, 5 + n2 + n3)

end Phaser

/-- An event hub with both optional groups enabled. -/
def hubBoth : Phaser.Events :=
  Phaser.Events.enableAnimationSignals
    (Phaser.Events.enableInputSignals (Phaser.Events.create 0))

/-- A live node whose canvas is attached to a parent display node. -/
def attachedNode : Phaser.Text :=
  { sampleMoved with canvas := some { parentNode := some 7 } }

/-- A hub as reachable in the engine: constructed, then each optional
group enabled or not. -/
def hubOf (p : ℕ) (input anim : Bool) : Phaser.Events :=
  (if anim then Phaser.Events.enableAnimationSignals else id)
    ((if input then Phaser.Events.enableInputSignals else id)
      (Phaser.Events.create p))

namespace Phaser

/-- The `content` getter (Text.js lines 205-207): returns `_text`. -/
def Text.contentGet (s : Text) : String := s._text

/-- The `content` setter (Text.js lines 209-218): when the value differs
from `_text`, store it and call `setText(value)` on the rendering surface;
otherwise do nothing.  The second component records the `setText` calls
made, in order. -/
def Text.contentSet (s : Text) (value : String) : Text × List String :=
  if value ≠ s._text then ({ s with _text := value }, [value])
  else (s, [])

/-- The `font` getter (Text.js lines 224-226): returns `_style`. -/
def Text.fontGet (s : Text) : String := s._style

/-- The `font` setter (Text.js lines 228-237): when the value differs from
`_style`, store it and call `setStyle(value)` on the rendering surface;
otherwise do nothing.  The second component records the `setStyle` calls
made, in order. -/
def Text.fontSet (s : Text) (value : String) : Text × List String :=
  if value ≠ s._style then ({ s with _style := value }, [value])
  else (s, [])

/-- Modelled from the spec: `Phaser.Math.degToRad`, the Math collaborator
degrees-to-radians conversion (`Phaser.Math` is not part of this
fragment): multiply by pi over 180. -/
noncomputable def Math.degToRad (degrees : ℝ) : ℝ :=
  degrees * (Real.pi / 180)

/-- Modelled from the spec: `Phaser.Math.radToDeg`, the Math collaborator
radians-to-degrees conversion: multiply by 180 over pi. -/
noncomputable def Math.radToDeg (radians : ℝ) : ℝ :=
  radians * (180 / Real.pi)

/-- The `angle` getter (Text.js lines 193-195): the rotation converted to
degrees. -/
noncomputable def Text.angleGet (s : Text) : ℝ :=
  Math.radToDeg s.rotation

/-- The `angle` setter (Text.js lines 197-199): store the value converted
to radians into `rotation`. -/
noncomputable def Text.angleSet (s : Text) (value : ℝ) : Text :=
  { s with rotation := Math.degToRad value }

end Phaser

/-- A JavaScript value as it can arrive at the `Phaser.Text` constructor:
a number, a string, a boolean, `null` or `undefined` (an omitted argument
arrives as `undefined`). -/
inductive JSVal where
  | num : ℚ → JSVal
  | str : String → JSVal
  | boolean : Bool → JSVal
  | null : JSVal
  | undefined : JSVal
deriving DecidableEq, Repr

/-- JavaScript truthiness: `0`, the empty string, `false`, `null` and
`undefined` are falsy; every other value of these kinds is truthy. -/
def JSVal.truthy : JSVal → Bool
  | .num q => decide (q ≠ 0)
  | .str s => decide (s ≠ ("" : String))
  | .boolean b => b
  | .null => false
  | .undefined => false

/-- The JavaScript `||` operator as used for defaulting: the left operand
when it is truthy, the right operand otherwise. -/
def jsOr (a b : JSVal) : JSVal := if a.truthy then a else b

/-- The four constructor arguments after defaulting. -/
structure CtorArgs where
  x : JSVal
  y : JSVal
  text : JSVal
  style : JSVal
deriving DecidableEq, Repr

namespace Phaser

/-- The argument-defaulting prologue of the `Phaser.Text` constructor
(Text.js lines 19-22): `x = x || 0; y = y || 0; text = text || ''
style = style || ''`.  The defaulted `text` value is then stored into
`_text` (line 62) and the defaulted `style` into `_style` (line 68). -/
def Text.defaultArgs (x y text style : JSVal) : CtorArgs :=
  { x := jsOr x (JSVal.num 0), y := jsOr y (JSVal.num 0),
    text := jsOr text (JSVal.str ("")),
    style := jsOr style (JSVal.str ("")) }

end Phaser

/-- Claim C1, as frozen, is false on the code: at `staleCacheNode` the node
exists, `position` differs from the cache values stored at the start of the
call, and still `update()` leaves `dirty = false`, because the comparison
is made against the freshly snapshotted `x/y`, not against the previously
stored cache values. -/
theorem C1_dirty_vs_stale_cache_counterexample :
    staleCacheNode.«exists» = true ∧
    staleCacheNode.position.x ≠ staleCacheNode._cache.x ∧
    (Phaser.Text.update staleCacheNode)._cache.dirty = false := by
  refine ⟨rfl, by norm_num [staleCacheNode], rfl⟩

/-- Claim C1 (amended): for a node with `exists = true`, after `update()`
the dirty flag is set if and only if `position.x` or `position.y` differed,
at the start of the call, from the node fields `x`/`y` that the call
snapshots into the cache (not from the cache values of the previous tick);
otherwise the flag is false after the call. -/
theorem C1_update_dirty_iff (s : Phaser.Text) (h : s.«exists» = true) :
    (Phaser.Text.update s)._cache.dirty = true ↔
      (s.position.x ≠ s.x ∨ s.position.y ≠ s.y) := by
  by_cases hd : s.position.x ≠ s.x ∨ s.position.y ≠ s.y <;>
    simp [Phaser.Text.update, h, hd]

/-- Witness for C1 at the concrete node `sampleMoved`. -/
theorem C1_update_dirty_iff_witness :
    (Phaser.Text.update sampleMoved)._cache.dirty = true ↔
      (sampleMoved.position.x ≠ sampleMoved.x ∨
        sampleMoved.position.y ≠ sampleMoved.y) :=
  C1_update_dirty_iff sampleMoved rfl

/-- Claim C3: on a node with `exists = false`, `update()` returns the state
unchanged: every cache field, both position fields and all other node
fields are identical before and after the call. -/
theorem C3_update_noop_when_not_exists (s : Phaser.Text)
    (h : s.«exists» = false) : Phaser.Text.update s = s := by
  simp [Phaser.Text.update, h]

/-- Witness for C3 at the concrete node `deadNode`. -/
theorem C3_update_noop_witness : Phaser.Text.update deadNode = deadNode :=
  C3_update_noop_when_not_exists deadNode rfl

/-- Claim C7: on a node with `exists = true`, `update()` can change only
`_cache.dirty`, `_cache.x`, `_cache.y` and the two `position` fields; the
transform cache `a00..a12, id`, the scale cache `scaleX/scaleY`, and every
other node field are returned unchanged. -/
theorem C7_update_frame (s : Phaser.Text) (h : s.«exists» = true) :
    (Phaser.Text.update s)._cache.a00 = s._cache.a00 ∧
    (Phaser.Text.update s)._cache.a01 = s._cache.a01 ∧
    (Phaser.Text.update s)._cache.a02 = s._cache.a02 ∧
    (Phaser.Text.update s)._cache.a10 = s._cache.a10 ∧
    (Phaser.Text.update s)._cache.a11 = s._cache.a11 ∧
    (Phaser.Text.update s)._cache.a12 = s._cache.a12 ∧
    (Phaser.Text.update s)._cache.id = s._cache.id ∧
    (Phaser.Text.update s)._cache.scaleX = s._cache.scaleX ∧
    (Phaser.Text.update s)._cache.scaleY = s._cache.scaleY ∧
    (Phaser.Text.update s).«exists» = s.«exists» ∧
    (Phaser.Text.update s).alive = s.alive ∧
    (Phaser.Text.update s).group = s.group ∧
    (Phaser.Text.update s).name = s.name ∧
    (Phaser.Text.update s)._text = s._text ∧
    (Phaser.Text.update s)._style = s._style ∧
    (Phaser.Text.update s).x = s.x ∧
    (Phaser.Text.update s).y = s.y ∧
    (Phaser.Text.update s).anchor = s.anchor ∧
    (Phaser.Text.update s).scale = s.scale ∧
    (Phaser.Text.update s).renderable = s.renderable ∧
    (Phaser.Text.update s).rotation = s.rotation ∧
    (Phaser.Text.update s).canvas = s.canvas ∧
    (Phaser.Text.update s).context = s.context := by
  by_cases hd : s.position.x ≠ s.x ∨ s.position.y ≠ s.y <;>
    simp [Phaser.Text.update, h, hd]

/-- Witness for C7 at the concrete node `sampleMoved`. -/
theorem C7_update_frame_witness :
    (Phaser.Text.update sampleMoved)._cache.a00 = sampleMoved._cache.a00 ∧
    (Phaser.Text.update sampleMoved)._cache.a01 = sampleMoved._cache.a01 ∧
    (Phaser.Text.update sampleMoved)._cache.a02 = sampleMoved._cache.a02 ∧
    (Phaser.Text.update sampleMoved)._cache.a10 = sampleMoved._cache.a10 ∧
    (Phaser.Text.update sampleMoved)._cache.a11 = sampleMoved._cache.a11 ∧
    (Phaser.Text.update sampleMoved)._cache.a12 = sampleMoved._cache.a12 ∧
    (Phaser.Text.update sampleMoved)._cache.id = sampleMoved._cache.id ∧
    (Phaser.Text.update sampleMoved)._cache.scaleX = sampleMoved._cache.scaleX ∧
    (Phaser.Text.update sampleMoved)._cache.scaleY = sampleMoved._cache.scaleY ∧
    (Phaser.Text.update sampleMoved).«exists» = sampleMoved.«exists» ∧
    (Phaser.Text.update sampleMoved).alive = sampleMoved.alive ∧
    (Phaser.Text.update sampleMoved).group = sampleMoved.group ∧
    (Phaser.Text.update sampleMoved).name = sampleMoved.name ∧
    (Phaser.Text.update sampleMoved)._text = sampleMoved._text ∧
    (Phaser.Text.update sampleMoved)._style = sampleMoved._style ∧
    (Phaser.Text.update sampleMoved).x = sampleMoved.x ∧
    (Phaser.Text.update sampleMoved).y = sampleMoved.y ∧
    (Phaser.Text.update sampleMoved).anchor = sampleMoved.anchor ∧
    (Phaser.Text.update sampleMoved).scale = sampleMoved.scale ∧
    (Phaser.Text.update sampleMoved).renderable = sampleMoved.renderable ∧
    (Phaser.Text.update sampleMoved).rotation = sampleMoved.rotation ∧
    (Phaser.Text.update sampleMoved).canvas = sampleMoved.canvas ∧
    (Phaser.Text.update sampleMoved).context = sampleMoved.context :=
  C7_update_frame sampleMoved rfl

/-- Claim C10: on a node with `exists = true`, right after `update()` the
position equals the cache snapshot, and a second consecutive `update()`
(with no external mutation in between) changes nothing except resetting
`_cache.dirty` to false. -/
theorem C10_update_idem (s : Phaser.Text) (h : s.«exists» = true) :
    (Phaser.Text.update s).position.x = (Phaser.Text.update s)._cache.x ∧
    (Phaser.Text.update s).position.y = (Phaser.Text.update s)._cache.y ∧
    Phaser.Text.update (Phaser.Text.update s) =
      { Phaser.Text.update s with
          _cache := { (Phaser.Text.update s)._cache with dirty := false } } := by
  by_cases hd : s.position.x ≠ s.x ∨ s.position.y ≠ s.y
  · simp [Phaser.Text.update, h, hd]
  · simp [Phaser.Text.update, h, hd]
    push_neg at hd
    simp [hd]

/-- Witness for C10 at the concrete node `sampleMoved`. -/
theorem C10_update_idem_witness :
    (Phaser.Text.update sampleMoved).position.x =
      (Phaser.Text.update sampleMoved)._cache.x ∧
    (Phaser.Text.update sampleMoved).position.y =
      (Phaser.Text.update sampleMoved)._cache.y ∧
    Phaser.Text.update (Phaser.Text.update sampleMoved) =
      { Phaser.Text.update sampleMoved with
          _cache := { (Phaser.Text.update sampleMoved)._cache with
                        dirty := false } } :=
  C10_update_idem sampleMoved rfl

/-- Claim C6: a (first) call to `destroy()` on a node whose canvas handle is
live always completes, invokes `group.remove` exactly when `group` was
non-null, nulls the canvas and context handles exactly when the canvas had
no parent node (otherwise detachment is requested and the handles are
kept), and leaves `exists = false` and `group = null`. -/
theorem C6_destroy_postconditions (s : Phaser.Text) (c : Phaser.Canvas)
    (hc : s.canvas = some c) :
    ∃ s1 fx, Phaser.Text.destroy s = some (s1, fx) ∧
      fx.removedFromGroup = s.group.isSome ∧
      s1.«exists» = false ∧ s1.group = none ∧
      (c.parentNode = none →
        s1.canvas = none ∧ s1.context = none ∧
          fx.removeChildRequested = false) ∧
      (c.parentNode ≠ none →
        fx.removeChildRequested = true ∧
          s1.canvas = some { parentNode := none } ∧
          s1.context = s.context) := by
  cases hp : c.parentNode with
  | none =>
      exact ⟨{ s with canvas := none, context := none,
                      «exists» := false, group := none },
             { removedFromGroup := s.group.isSome,
               removeChildRequested := false },
             by simp [Phaser.Text.destroy, hc, hp], rfl, rfl, rfl,
             fun _ => ⟨rfl, rfl, rfl⟩, fun hne => absurd rfl hne⟩
  | some p =>
      exact ⟨{ s with canvas := some { parentNode := none },
                      «exists» := false, group := none },
             { removedFromGroup := s.group.isSome,
               removeChildRequested := true },
             by simp [Phaser.Text.destroy, hc, hp], rfl, rfl, rfl,
             fun h0 => by simp [hp] at h0, fun _ => ⟨rfl, rfl, rfl⟩⟩

/-- Witness for C6 at the concrete node `sampleMoved`, whose canvas has no
parent and whose group is set. -/
theorem C6_destroy_postconditions_witness :
    ∃ s1 fx, Phaser.Text.destroy sampleMoved = some (s1, fx) ∧
      fx.removedFromGroup = sampleMoved.group.isSome ∧
      s1.«exists» = false ∧ s1.group = none ∧
      ((Phaser.Canvas.mk none).parentNode = none →
        s1.canvas = none ∧ s1.context = none ∧
          fx.removeChildRequested = false) ∧
      ((Phaser.Canvas.mk none).parentNode ≠ none →
        fx.removeChildRequested = true ∧
          s1.canvas = some { parentNode := none } ∧
          s1.context = sampleMoved.context) :=
  C6_destroy_postconditions sampleMoved { parentNode := none } rfl

/-- Claim C2, as frozen, is false on the code: with both optional groups
enabled, `destroy()` disposes the five fixed signals, the six input-group
signals and the three animation-group signals, 14 `dispose()` calls in
total, not 11. -/
theorem C2_dispose_count_counterexample :
    (Phaser.Events.destroy hubBoth).map Prod.snd = some 14 ∧
      (Phaser.Events.destroy hubBoth).map Prod.snd ≠ some 11 := by decide

/-- Claim C2 (amended): on a hub whose five fixed signals are present and
whose optional groups are each all-present or all-absent, `destroy()`
completes without throwing and disposes exactly
5 + (6 when the input group is enabled) + (3 when the animation group is
enabled) signals: 5 with no group, 11 with input only, 8 with animation
only, 14 with both. -/
theorem C2_destroy_dispose_count (h : Phaser.Events)
    (hfix : h.onAddedToGroup.isSome ∧ h.onRemovedFromGroup.isSome ∧
      h.onKilled.isSome ∧ h.onRevived.isSome ∧ h.onOutOfBounds.isSome)
    (hin : (h.onInputOver.isSome ∧ h.onInputOut.isSome ∧
        h.onInputDown.isSome ∧ h.onInputUp.isSome ∧
        h.onDragStart.isSome ∧ h.onDragStop.isSome) ∨
      (h.onInputOver = none ∧ h.onInputOut = none ∧
        h.onInputDown = none ∧ h.onInputUp = none ∧
        h.onDragStart = none ∧ h.onDragStop = none))
    (han : (h.onAnimationStart.isSome ∧ h.onAnimationComplete.isSome ∧
        h.onAnimationLoop.isSome) ∨
      (h.onAnimationStart = none ∧ h.onAnimationComplete = none ∧
        h.onAnimationLoop = none)) :
    ∃ h1, Phaser.Events.destroy h =
      some (h1, 5 + (if h.onInputOver.isSome then 6 else 0) +
        (if h.onAnimationStart.isSome then 3 else 0)) := by
  obtain ⟨a, ha⟩ := Option.isSome_iff_exists.mp hfix.1
  obtain ⟨b, hb⟩ := Option.isSome_iff_exists.mp hfix.2.1
  obtain ⟨c, hc⟩ := Option.isSome_iff_exists.mp hfix.2.2.1
  obtain ⟨d, hd⟩ := Option.isSome_iff_exists.mp hfix.2.2.2.1
  obtain ⟨e, he⟩ := Option.isSome_iff_exists.mp hfix.2.2.2.2
  rcases hin with ⟨hi1, hi2, hi3, hi4, hi5, hi6⟩ |
    ⟨hi1, hi2, hi3, hi4, hi5, hi6⟩
  · obtain ⟨i1, hj1⟩ := Option.isSome_iff_exists.mp hi1
    obtain ⟨i2, hj2⟩ := Option.isSome_iff_exists.mp hi2
    obtain ⟨i3, hj3⟩ := Option.isSome_iff_exists.mp hi3
    obtain ⟨i4, hj4⟩ := Option.isSome_iff_exists.mp hi4
    obtain ⟨i5, hj5⟩ := Option.isSome_iff_exists.mp hi5
    obtain ⟨i6, hj6⟩ := Option.isSome_iff_exists.mp hi6
    rcases han with ⟨hn1, hn2, hn3⟩ | ⟨hn1, hn2, hn3⟩
    · obtain ⟨b1, hk1⟩ := Option.isSome_iff_exists.mp hn1
      obtain ⟨b2, hk2⟩ := Option.isSome_iff_exists.mp hn2
      obtain ⟨b3, hk3⟩ := Option.isSome_iff_exists.mp hn3
      simp [Phaser.Events.destroy, Phaser.disposeSlot, ha, hb, hc, hd, he,
        hj1, hj2, hj3, hj4, hj5, hj6, hk1, hk2, hk3]
    · simp [Phaser.Events.destroy, Phaser.disposeSlot, ha, hb, hc, hd, he,
        hj1, hj2, hj3, hj4, hj5, hj6, hn1, hn2, hn3]
  · rcases han with ⟨hn1, hn2, hn3⟩ | ⟨hn1, hn2, hn3⟩
    · obtain ⟨b1, hk1⟩ := Option.isSome_iff_exists.mp hn1
      obtain ⟨b2, hk2⟩ := Option.isSome_iff_exists.mp hn2
      obtain ⟨b3, hk3⟩ := Option.isSome_iff_exists.mp hn3
      simp [Phaser.Events.destroy, Phaser.disposeSlot, ha, hb, hc, hd, he,
        hi1, hi2, hi3, hi4, hi5, hi6, hk1, hk2, hk3]
    · simp [Phaser.Events.destroy, Phaser.disposeSlot, ha, hb, hc, hd, he,
        hi1, hi2, hi3, hi4, hi5, hi6, hn1, hn2, hn3]

/-- Witness for C2 at the concrete hub `hubBoth`, whose optional groups are
both enabled. -/
theorem C2_destroy_dispose_count_witness :
    ∃ h1, Phaser.Events.destroy hubBoth =
      some (h1, 5 + (if hubBoth.onInputOver.isSome then 6 else 0) +
        (if hubBoth.onAnimationStart.isSome then 3 else 0)) :=
  C2_destroy_dispose_count hubBoth
    (by decide) (Or.inl (by decide)) (Or.inl (by decide))

/-- Claim C5, as frozen, is false on the code: `attachedNode` has been
destroyed once (its canvas had a parent, so the handles were kept), and
the second `destroy()` call completes instead of faulting: the cleared
`group` is only truthiness-tested, and the canvas handle is still live. -/
theorem C5_second_destroy_counterexample :
    (Phaser.Text.destroy attachedNode).isSome = true ∧
    (Phaser.Text.destroy attachedNode).map
      (fun r => (Phaser.Text.destroy r.1).isSome) = some true := ⟨rfl, rfl⟩

/-- Claim C5 (amended): `destroy()` is still not idempotent, but a second
call faults only in one case: after a first `destroy()` on a `TextNode`
(whose canvas handle was live), the second call faults exactly when the
canvas had no parent at the first call, i.e. exactly when the first call
nulled the canvas handle; when the canvas was attached the second call
completes.  A hub reachable through the constructor and the optional
group enables survives a second `EventHub.destroy()` (the signal fields
are never cleared, and re-disposing a disposed signal is inert). -/
theorem C5_destroy_not_idempotent (s : Phaser.Text) (c : Phaser.Canvas)
    (hc : s.canvas = some c) (p : ℕ) (input anim : Bool) :
    (∃ s1 fx, Phaser.Text.destroy s = some (s1, fx) ∧
      (Phaser.Text.destroy s1 = none ↔ c.parentNode = none)) ∧
    (∃ h1 n, Phaser.Events.destroy (hubOf p input anim) = some (h1, n) ∧
      (Phaser.Events.destroy h1).isSome = true) := by
  constructor
  · cases hp : c.parentNode with
    | none =>
        refine ⟨{ s with canvas := none, context := none,
                         «exists» := false, group := none },
                { removedFromGroup := s.group.isSome,
                  removeChildRequested := false },
                by simp [Phaser.Text.destroy, hc, hp], ?_⟩
        simp [Phaser.Text.destroy]
    | some q =>
        refine ⟨{ s with canvas := some { parentNode := none },
                         «exists» := false, group := none },
                { removedFromGroup := s.group.isSome,
                  removeChildRequested := true },
                by simp [Phaser.Text.destroy, hc, hp], ?_⟩
        simp [Phaser.Text.destroy]
  · cases input <;> cases anim <;> exact ⟨_, _, rfl, rfl⟩

/-- Witness for C5 at the concrete node `attachedNode` and the hub with
only the input group enabled. -/
theorem C5_destroy_not_idempotent_witness :
    (∃ s1 fx, Phaser.Text.destroy attachedNode = some (s1, fx) ∧
      (Phaser.Text.destroy s1 = none ↔
        (Phaser.Canvas.mk (some 7)).parentNode = none)) ∧
    (∃ h1 n, Phaser.Events.destroy (hubOf 3 true false) = some (h1, n) ∧
      (Phaser.Events.destroy h1).isSome = true) :=
  C5_destroy_not_idempotent attachedNode { parentNode := some 7 } rfl
    3 true false

/-- Claim C4: writing `content` (resp. `font`) with a value equal to the
stored `_text` (resp. `_style`) changes nothing and makes no re-render
call; writing a different value changes exactly that field and makes
exactly one `setText` (resp. `setStyle`) call carrying the new value. -/
theorem C4_setters_rerender_once (s : Phaser.Text) (v : String) :
    (v = s._text → Phaser.Text.contentSet s v = (s, [])) ∧
    (v ≠ s._text →
      Phaser.Text.contentSet s v = ({ s with _text := v }, [v])) ∧
    (v = s._style → Phaser.Text.fontSet s v = (s, [])) ∧
    (v ≠ s._style →
      Phaser.Text.fontSet s v = ({ s with _style := v }, [v])) := by
  refine ⟨fun h => ?_, fun h => ?_, fun h => ?_, fun h => ?_⟩ <;>
    simp [Phaser.Text.contentSet, Phaser.Text.fontSet, h]

/-- Witness for C4 at the concrete node `sampleMoved` (whose `_text` is
"hi" and whose `_style` is empty): an equal write is a no-op, a different
write re-renders once. -/
theorem C4_setters_rerender_once_witness :
    Phaser.Text.contentSet sampleMoved ("hi") = (sampleMoved, []) ∧
    Phaser.Text.contentSet sampleMoved ("bye") =
      ({ sampleMoved with _text := "bye" }, ["bye"]) ∧
    Phaser.Text.fontSet sampleMoved ("") = (sampleMoved, []) :=
  ⟨(C4_setters_rerender_once sampleMoved ("hi")).1 rfl,
   (C4_setters_rerender_once sampleMoved ("bye")).2.1 (by decide),
   (C4_setters_rerender_once sampleMoved ("")).2.2.1 rfl⟩

/-- Claim C8: writing the `angle` property and reading it back returns the
written value for every node and every angle (the conversions are exact
mutual inverses over the reals), and the setter touches no state other
than `rotation`. -/
theorem C8_angle_roundtrip (s : Phaser.Text) (θ : ℝ) :
    Phaser.Text.angleGet (Phaser.Text.angleSet s θ) = θ ∧
    Phaser.Text.angleSet s θ =
      { s with rotation := Phaser.Math.degToRad θ } := by
  refine ⟨?_, rfl⟩
  have hpi : Real.pi ≠ 0 := Real.pi_ne_zero
  simp [Phaser.Text.angleGet, Phaser.Text.angleSet, Phaser.Math.degToRad,
    Phaser.Math.radToDeg]
  field_simp

/-- Claim C9: the constructor replaces every falsy argument (0, the empty
string, null, undefined, false, ...) with its default, exactly as if the
argument were omitted (i.e. were `undefined`); in particular a falsy
`text` argument yields `_text = ""` and a falsy `style` argument yields
the default style `""`. -/
theorem C9_ctor_falsy_defaults (v x y t st : JSVal)
    (h : v.truthy = false) :
    Phaser.Text.defaultArgs v y t st =
      Phaser.Text.defaultArgs JSVal.undefined y t st ∧
    Phaser.Text.defaultArgs x v t st =
      Phaser.Text.defaultArgs x JSVal.undefined t st ∧
    Phaser.Text.defaultArgs x y v st =
      Phaser.Text.defaultArgs x y JSVal.undefined st ∧
    Phaser.Text.defaultArgs x y t v =
      Phaser.Text.defaultArgs x y t JSVal.undefined ∧
    (Phaser.Text.defaultArgs x y v st).text = JSVal.str ("") ∧
    (Phaser.Text.defaultArgs x y t v).style = JSVal.str ("") := by
  refine ⟨?_, ?_, ?_, ?_, ?_, ?_⟩ <;>
    (simp [Phaser.Text.defaultArgs, jsOr, h]; try simp [JSVal.truthy])

/-- Witness for C9: each of the five falsy values listed by the claim,
passed as the `text` argument with the other arguments held at (1, 2,
"f"), produces the same defaulted arguments as an omitted `text`, with
`text` defaulted to the empty string. -/
theorem C9_ctor_falsy_defaults_witness :
    (Phaser.Text.defaultArgs (JSVal.num 1) (JSVal.num 2) (JSVal.num 0)
        (JSVal.str ("f")) =
      Phaser.Text.defaultArgs (JSVal.num 1) (JSVal.num 2) JSVal.undefined
        (JSVal.str ("f")) ∧
     (Phaser.Text.defaultArgs (JSVal.num 1) (JSVal.num 2) (JSVal.num 0)
        (JSVal.str ("f"))).text = JSVal.str ("")) ∧
    ((Phaser.Text.defaultArgs (JSVal.num 1) (JSVal.num 2) (JSVal.str (""))
        (JSVal.str ("f"))).text = JSVal.str ("")) ∧
    ((Phaser.Text.defaultArgs (JSVal.num 1) (JSVal.num 2) JSVal.null
        (JSVal.str ("f"))).text = JSVal.str ("")) ∧
    ((Phaser.Text.defaultArgs (JSVal.num 1) (JSVal.num 2) JSVal.undefined
        (JSVal.str ("f"))).text = JSVal.str ("")) ∧
    ((Phaser.Text.defaultArgs (JSVal.num 1) (JSVal.num 2)
        (JSVal.boolean false) (JSVal.str ("f"))).text = JSVal.str ("")) :=
  ⟨⟨(C9_ctor_falsy_defaults (JSVal.num 0) (JSVal.num 1) (JSVal.num 2)
        (JSVal.num 2) (JSVal.str ("f")) (by decide)).2.2.1,
    (C9_ctor_falsy_defaults (JSVal.num 0) (JSVal.num 1) (JSVal.num 2)
        (JSVal.num 2) (JSVal.str ("f")) (by decide)).2.2.2.2.1⟩,
   (C9_ctor_falsy_defaults (JSVal.str ("")) (JSVal.num 1) (JSVal.num 2)
        (JSVal.num 2) (JSVal.str ("f")) (by decide)).2.2.2.2.1,
   (C9_ctor_falsy_defaults JSVal.null (JSVal.num 1) (JSVal.num 2)
        (JSVal.num 2) (JSVal.str ("f")) (by decide)).2.2.2.2.1,
   (C9_ctor_falsy_defaults JSVal.undefined (JSVal.num 1) (JSVal.num 2)
        (JSVal.num 2) (JSVal.str ("f")) (by decide)).2.2.2.2.1,
   (C9_ctor_falsy_defaults (JSVal.boolean false) (JSVal.num 1) (JSVal.num 2)
        (JSVal.num 2) (JSVal.str ("f")) (by decide)).2.2.2.2.1⟩
